import Mathlib

/-!
Verification of the wallet-adapter lifecycle core of
`src/packages/base/src/adapter/IAdapter.ts` (web3auth-web).

The embedded operations are `BaseAdapter.checkConnectionRequirements`,
`BaseAdapter.checkInitializationRequirements`, `BaseAdapter.setChainConfig`
and the `chainConfigProxy` getter.  Throwing code is embedded as functions
returning `Except WalletError _`; the mutable adapter object is embedded as
an explicit state record.
-/

namespace Web3Auth

/-- The `ADAPTER_STATUS` string-constant enumeration of `IAdapter.ts`
(lines 50-58): `not_ready`, `ready`, `connecting`, `connected`,
`disconnected`, `errored`. -/
inductive AdapterStatus where
  | NOT_READY
  | READY
  | CONNECTING
  | CONNECTED
  | DISCONNECTED
  | ERRORED
deriving DecidableEq, Repr

/-- The `ADAPTER_CATEGORY` enumeration of `IAdapter.ts` (lines 37-41):
`external` and `in_app`. -/
inductive AdapterCategory where
  | EXTERNAL
  | IN_APP
deriving DecidableEq, Repr

/-- Modelled from the spec: the chain-namespace enumeration
(`ChainNamespaceType`, declared in `../chain/IChainInterface` which is not
part of the excerpt).  The spec describes it as "the category of blockchain
network an adapter or chain configuration targets"; a closed set of
non-empty tags. -/
inductive ChainNamespace where
  | eip155
  | solana
  | other
deriving DecidableEq, Repr

/-- Modelled from the spec: the error kinds of §6/§7, "a typed error
carrying a `kind` (`initialization` vs `login`) and a human-readable
message" (the `errors` module is not part of the excerpt). -/
inductive ErrorKind where
  | initialization
  | login
deriving DecidableEq, Repr

/-- Modelled from the spec: the typed error object produced by the error
factories (§6): a kind plus a human-readable message. -/
structure WalletError where
  kind : ErrorKind
  message : String
deriving DecidableEq, Repr

/-- Modelled from the spec: the factory `WalletInitializationError.notReady`
used by `setChainConfig` and `checkInitializationRequirements` — produces an
initialization-kind error with the given message. -/
def WalletInitializationError.notReady (m : String) : WalletError :=
  { kind := ErrorKind.initialization, message := m }

/-- Modelled from the spec: the factory `WalletLoginError.connectionError`
used by `checkConnectionRequirements` — produces a login-kind error with the
given message. -/
def WalletLoginError.connectionError (m : String) : WalletError :=
  { kind := ErrorKind.login, message := m }

/-- Modelled from the spec: `CustomChainConfig` (declared in
`../chain/IChainInterface`, not part of the excerpt) — a partial record
describing a blockchain network: "namespace, chain identifier, and other
network parameters" (§3).  Every field is optional in the caller-supplied
partial configuration; `none` means the field is absent. -/
structure CustomChainConfig where
  chainNamespace : Option ChainNamespace
  chainId : Option String
  rpcTarget : Option String
  displayName : Option String
  blockExplorer : Option String
  ticker : Option String
  tickerName : Option String
deriving DecidableEq, Repr

/-- One field of the JavaScript object-spread merge
`{ ...defaultChainConfig, ...customChainConfig }` (`IAdapter.ts` line 108):
a key present in the second object wins; a key absent from the second object
keeps the first object's value. -/
def mergeField {α : Type} (d c : Option α) : Option α :=
  match c with
  | some v => some v
  | none => d

/-- The object-spread merge `{ ...defaultChainConfig, ...customChainConfig }`
of `IAdapter.ts` line 108, applied field by field. -/
def mergeConfig (d c : CustomChainConfig) : CustomChainConfig :=
  { chainNamespace := mergeField d.chainNamespace c.chainNamespace
    chainId := mergeField d.chainId c.chainId
    rpcTarget := mergeField d.rpcTarget c.rpcTarget
    displayName := mergeField d.displayName c.displayName
    blockExplorer := mergeField d.blockExplorer c.blockExplorer
    ticker := mergeField d.ticker c.ticker
    tickerName := mergeField d.tickerName c.tickerName }

/-- The chain-configuration registry `getChainConfig(namespace, chainId?)`
(imported from `..` in `IAdapter.ts`, not part of the excerpt).  The
theorems below quantify over an arbitrary registry of this type, so they
hold for the real one; per §6 it "must return a complete default for any
valid namespace". -/
def Registry : Type := ChainNamespace → Option String → CustomChainConfig

/-- The mutable fields of a `BaseAdapter` instance (`IAdapter.ts` lines
81-98): the concrete `adapterData` and `chainConfig` fields together with
the abstract instance fields declared on the class. -/
structure BaseAdapterState where
  adapterData : String
  chainConfig : Option CustomChainConfig
  adapterNamespace : String
  currentChainNamespace : ChainNamespace
  type : AdapterCategory
  name : String
  status : AdapterStatus
  provider : Option Nat
deriving DecidableEq, Repr

/-- `BaseAdapter.checkConnectionRequirements` (`IAdapter.ts` lines 111-115):
reads `this.status`; throws a login/connection error "Already pending
connection" when `CONNECTING`, "Already connected" when `CONNECTED`,
"Wallet adapter is not ready yet" when the status is anything else except
`READY`; otherwise returns. -/
def checkConnectionRequirements (s : BaseAdapterState) : Except WalletError Unit :=
  if s.status = AdapterStatus.CONNECTING then
    Except.error (WalletLoginError.connectionError "Already pending connection")
  else if s.status = AdapterStatus.CONNECTED then
    Except.error (WalletLoginError.connectionError "Already connected")
  else if s.status ≠ AdapterStatus.READY then
    Except.error (WalletLoginError.connectionError "Wallet adapter is not ready yet")
  else
    Except.ok ()

/-- `BaseAdapter.checkInitializationRequirements` (`IAdapter.ts` lines
117-122): reads `this.status`; returns immediately when `NOT_READY`; throws
an initialization error "Already pending connection" when `CONNECTING`,
"Already connected" when `CONNECTED`, "Adapter is already initialized" when
`READY`; any remaining status falls through every branch and returns. -/
def checkInitializationRequirements (s : BaseAdapterState) : Except WalletError Unit :=
  if s.status = AdapterStatus.NOT_READY then
    Except.ok ()
  else if s.status = AdapterStatus.CONNECTING then
    Except.error (WalletInitializationError.notReady "Already pending connection")
  else if s.status = AdapterStatus.CONNECTED then
    Except.error (WalletInitializationError.notReady "Already connected")
  else if s.status = AdapterStatus.READY then
    Except.error (WalletInitializationError.notReady "Adapter is already initialized")
  else
    Except.ok ()

/-- `BaseAdapter.setChainConfig` (`IAdapter.ts` lines 104-109), embedded as
a state transformer returning the post-call adapter state together with the
outcome (`ok` for a normal return, `error` for a throw; a throw leaves the
adapter state as it was, since the only assignment is the last statement).
When the status is `READY` it returns at once without touching any field;
when the supplied configuration has no chain namespace it throws the
initialization error "ChainNamespace is required while setting chainConfig";
otherwise it looks up the registry default for the supplied namespace and
chain id and stores the spread merge of that default under the supplied
fields. -/
def setChainConfig (reg : Registry) (s : BaseAdapterState)
    (customChainConfig : CustomChainConfig) :
    BaseAdapterState × Except WalletError Unit :=
  if s.status = AdapterStatus.READY then
    (s, Except.ok ())
  else
    match customChainConfig.chainNamespace with
    | none =>
        (s, Except.error (WalletInitializationError.notReady
          "ChainNamespace is required while setting chainConfig"))
    | some ns =>
        let defaultChainConfig := reg ns customChainConfig.chainId
        ({ s with chainConfig := some (mergeConfig defaultChainConfig customChainConfig) },
          Except.ok ())

/-!
For the `chainConfigProxy` getter (`IAdapter.ts` lines 100-102) object
identity matters: `{ ...this.chainConfig }` allocates a fresh object whose
fields are copied from the stored one (all `CustomChainConfig` fields are
primitives, so the shallow copy is a full copy).  We embed the JavaScript
object store as an explicit heap of configuration objects addressed by
allocation index; the adapter's internal `chainConfig` field holds a
reference into that heap. -/

/-- A heap of `CustomChainConfig` objects; a reference is an index into the
allocation list. -/
structure Heap where
  objs : List CustomChainConfig
deriving Repr

/-- Dereference: the object a reference points to, `none` if the reference
is dangling (which never happens to a reference the program holds). -/
def Heap.read (h : Heap) (r : Nat) : Option CustomChainConfig :=
  h.objs[r]?

/-- Allocate a fresh object with the given field values, returning the new
heap and the fresh reference. -/
def Heap.alloc (h : Heap) (c : CustomChainConfig) : Heap × Nat :=
  ({ objs := h.objs ++ [c] }, h.objs.length)

/-- Overwrite the object a reference points to (a caller mutating an object
it was handed). -/
def Heap.write (h : Heap) (r : Nat) (c : CustomChainConfig) : Heap :=
  { objs := h.objs.set r c }

/-- The `chainConfigProxy` getter (`IAdapter.ts` lines 100-102):
`return this.chainConfig ? { ...this.chainConfig } : undefined` — when the
internal `chainConfig` reference is set, allocate a fresh object carrying a
copy of its fields and return a reference to the copy; otherwise return
`undefined`. -/
def chainConfigProxy (h : Heap) (chainConfigRef : Option Nat) :
    Heap × Option Nat :=
  match chainConfigRef with
  | none => (h, none)
  | some r =>
      match h.read r with
      | none => (h, none)
      | some c =>
          let (hNew, rNew) := h.alloc c
          (hNew, some rNew)

/-! ### Concrete fixtures used by witnesses and counterexamples -/

/-- A concrete adapter state with the given status, used to instantiate the
general theorems. -/
def sampleState (st : AdapterStatus) : BaseAdapterState :=
  { adapterData := "default-adapter-data"
    chainConfig := none
    adapterNamespace := "eip155"
    currentChainNamespace := ChainNamespace.eip155
    type := AdapterCategory.EXTERNAL
    name := "metamask"
    status := st
    provider := none }

/-- A second concrete adapter state agreeing with `sampleState` only on the
status field, used for the determinism theorem. -/
def sampleStateAlt (st : AdapterStatus) : BaseAdapterState :=
  { adapterData := "other-adapter-data"
    chainConfig := some
      { chainNamespace := some ChainNamespace.solana
        chainId := some "0x3"
        rpcTarget := some "https://solana.example"
        displayName := some "Solana"
        blockExplorer := none
        ticker := some "SOL"
        tickerName := some "Solana" }
    adapterNamespace := "multichain"
    currentChainNamespace := ChainNamespace.solana
    type := AdapterCategory.IN_APP
    name := "torus-evm"
    status := st
    provider := some 7 }

/-- A concrete, fully-populated registry default configuration (per §6 the
registry "must return a complete default for any valid namespace"). -/
def defaultEip155 : CustomChainConfig :=
  { chainNamespace := some ChainNamespace.eip155
    chainId := some "0x1"
    rpcTarget := some "https://default.example"
    displayName := some "Ethereum Mainnet"
    blockExplorer := some "https://etherscan.example"
    ticker := some "ETH"
    tickerName := some "Ethereum" }

/-- A concrete registry returning the fixture default for every query. -/
def reg0 : Registry := fun _ _ => defaultEip155

/-- First caller-supplied configuration: carries a namespace and overrides
the RPC target. -/
def cfg1 : CustomChainConfig :=
  { chainNamespace := some ChainNamespace.eip155
    chainId := some "0x1"
    rpcTarget := some "https://custom.example"
    displayName := none
    blockExplorer := none
    ticker := none
    tickerName := none }

/-- Second caller-supplied configuration: carries a namespace, overrides the
display name, and omits the RPC target. -/
def cfg2 : CustomChainConfig :=
  { chainNamespace := some ChainNamespace.eip155
    chainId := some "0x1"
    rpcTarget := none
    displayName := some "My Network"
    blockExplorer := none
    ticker := none
    tickerName := none }

/-- A configuration with no chain namespace (the `setChainConfig({})`
scenario of §8). -/
def cfgEmpty : CustomChainConfig :=
  { chainNamespace := none
    chainId := none
    rpcTarget := none
    displayName := none
    blockExplorer := none
    ticker := none
    tickerName := none }

/-! ### Shared helper lemmas -/

/-- Spread-merge precedence, one field at a time: a field present in the
second (caller) object wins; a field absent from it keeps the first
(default) object's value. -/
theorem mergeField_spec {α : Type} (d c : Option α) :
    (∀ v, c = some v → mergeField d c = some v) ∧
    (c = none → mergeField d c = d) := by
  constructor
  · intro v hc
    simp [mergeField, hc]
  · intro hc
    simp [mergeField, hc]

/-- Shared step lemma: a `setChainConfig` call in any non-`READY` status
with a namespace-carrying configuration returns normally and stores the
spread merge of the registry default under the supplied fields. -/
theorem setChainConfig_step (reg : Registry) (s : BaseAdapterState)
    (c : CustomChainConfig) (ns : ChainNamespace)
    (hst : s.status ≠ AdapterStatus.READY)
    (hns : c.chainNamespace = some ns) :
    setChainConfig reg s c =
      ({ s with chainConfig := some (mergeConfig (reg ns c.chainId) c) },
        Except.ok ()) := by
  unfold setChainConfig
  rw [if_neg hst, hns]

/-! ### Claim theorems -/

/-- Claim C1: `checkConnectionRequirements` throws a connection/login error
for every status except `READY` — "Already pending connection" for
`CONNECTING`, "Already connected" for `CONNECTED`, "Wallet adapter is not
ready yet" for `NOT_READY`, `DISCONNECTED` and `ERRORED` — and it returns
normally exactly when the status is `READY`. -/
theorem checkConnectionRequirements_spec (s : BaseAdapterState) :
    (s.status = AdapterStatus.CONNECTING →
      checkConnectionRequirements s =
        Except.error { kind := ErrorKind.login, message := "Already pending connection" }) ∧
    (s.status = AdapterStatus.CONNECTED →
      checkConnectionRequirements s =
        Except.error { kind := ErrorKind.login, message := "Already connected" }) ∧
    (s.status = AdapterStatus.NOT_READY ∨ s.status = AdapterStatus.DISCONNECTED ∨
        s.status = AdapterStatus.ERRORED →
      checkConnectionRequirements s =
        Except.error { kind := ErrorKind.login, message := "Wallet adapter is not ready yet" }) ∧
    (checkConnectionRequirements s = Except.ok () ↔ s.status = AdapterStatus.READY) := by
  obtain ⟨ad, cc, ans, cns, ty, nm, st, pr⟩ := s
  cases st <;>
    simp [checkConnectionRequirements, WalletLoginError.connectionError]

/-- Witness for claim C1: at a concrete `CONNECTING` state the guard throws
the login error "Already pending connection", and at a concrete `READY`
state it passes. -/
theorem checkConnectionRequirements_spec_witness :
    checkConnectionRequirements (sampleState AdapterStatus.CONNECTING) =
      Except.error { kind := ErrorKind.login, message := "Already pending connection" } ∧
    checkConnectionRequirements (sampleState AdapterStatus.READY) = Except.ok () :=
  ⟨(checkConnectionRequirements_spec (sampleState AdapterStatus.CONNECTING)).1 rfl,
    (checkConnectionRequirements_spec (sampleState AdapterStatus.READY)).2.2.2.mpr rfl⟩

/-- Counterexample to claim C2: at a concrete `DISCONNECTED` state,
`checkInitializationRequirements` returns normally instead of throwing —
`DISCONNECTED` matches none of the four explicit branches and falls
through. -/
theorem checkInitializationRequirements_disconnected_counterexample :
    checkInitializationRequirements (sampleState AdapterStatus.DISCONNECTED) =
      Except.ok () := rfl

/-- Claim C2 (amended): `checkInitializationRequirements` throws an
initialization error "Already pending connection" for `CONNECTING`,
"Already connected" for `CONNECTED`, "Adapter is already initialized" for
`READY`; it returns normally for `NOT_READY` and also for `DISCONNECTED`
and `ERRORED`, which fall through every branch. -/
theorem checkInitializationRequirements_spec (s : BaseAdapterState) :
    (s.status = AdapterStatus.CONNECTING →
      checkInitializationRequirements s =
        Except.error { kind := ErrorKind.initialization,
                       message := "Already pending connection" }) ∧
    (s.status = AdapterStatus.CONNECTED →
      checkInitializationRequirements s =
        Except.error { kind := ErrorKind.initialization, message := "Already connected" }) ∧
    (s.status = AdapterStatus.READY →
      checkInitializationRequirements s =
        Except.error { kind := ErrorKind.initialization,
                       message := "Adapter is already initialized" }) ∧
    (checkInitializationRequirements s = Except.ok () ↔
      (s.status = AdapterStatus.NOT_READY ∨ s.status = AdapterStatus.DISCONNECTED ∨
        s.status = AdapterStatus.ERRORED)) := by
  obtain ⟨ad, cc, ans, cns, ty, nm, st, pr⟩ := s
  cases st <;>
    simp [checkInitializationRequirements, WalletInitializationError.notReady]

/-- Witness for claim C2 (amended): at a concrete `READY` state the init
guard throws "Adapter is already initialized", and at a concrete `ERRORED`
state it passes. -/
theorem checkInitializationRequirements_spec_witness :
    checkInitializationRequirements (sampleState AdapterStatus.READY) =
      Except.error { kind := ErrorKind.initialization,
                     message := "Adapter is already initialized" } ∧
    checkInitializationRequirements (sampleState AdapterStatus.ERRORED) = Except.ok () :=
  ⟨(checkInitializationRequirements_spec (sampleState AdapterStatus.READY)).2.2.1 rfl,
    (checkInitializationRequirements_spec (sampleState AdapterStatus.ERRORED)).2.2.2.mpr
      (Or.inr (Or.inr rfl))⟩

/-- Claim C9: both guards are deterministic functions of the status alone —
two adapter states with equal status produce identical guard outcomes (same
pass/throw decision and, on a throw, the same error kind and message),
whatever their other fields; and each guard yields a definite outcome (pass
or a specific error) for every state, hence for all six status values. -/
theorem guards_deterministic_in_status (s1 s2 : BaseAdapterState)
    (h : s1.status = s2.status) :
    checkConnectionRequirements s1 = checkConnectionRequirements s2 ∧
    checkInitializationRequirements s1 = checkInitializationRequirements s2 ∧
    (checkConnectionRequirements s1 = Except.ok () ∨
      ∃ e : WalletError, checkConnectionRequirements s1 = Except.error e) ∧
    (checkInitializationRequirements s1 = Except.ok () ∨
      ∃ e : WalletError, checkInitializationRequirements s1 = Except.error e) := by
  refine ⟨?_, ?_, ?_, ?_⟩
  · simp only [checkConnectionRequirements, h]
  · simp only [checkInitializationRequirements, h]
  · cases hc : checkConnectionRequirements s1 with
    | ok u => exact Or.inl rfl
    | error e => exact Or.inr ⟨e, rfl⟩
  · cases hc : checkInitializationRequirements s1 with
    | ok u => exact Or.inl rfl
    | error e => exact Or.inr ⟨e, rfl⟩

/-- Witness for claim C9: two concrete states that agree only on the
`CONNECTED` status produce identical guard outcomes. -/
theorem guards_deterministic_in_status_witness :
    checkConnectionRequirements (sampleState AdapterStatus.CONNECTED) =
      checkConnectionRequirements (sampleStateAlt AdapterStatus.CONNECTED) ∧
    checkInitializationRequirements (sampleState AdapterStatus.CONNECTED) =
      checkInitializationRequirements (sampleStateAlt AdapterStatus.CONNECTED) :=
  ⟨(guards_deterministic_in_status (sampleState AdapterStatus.CONNECTED)
      (sampleStateAlt AdapterStatus.CONNECTED) rfl).1,
    (guards_deterministic_in_status (sampleState AdapterStatus.CONNECTED)
      (sampleStateAlt AdapterStatus.CONNECTED) rfl).2.1⟩

/-- Counterexample to claim C3: at a concrete `READY` state,
`setChainConfig` returns normally (outcome `ok`, no error is raised); the
guard line is `return`, not `throw`. -/
theorem setChainConfig_ready_counterexample :
    setChainConfig reg0 (sampleState AdapterStatus.READY) cfg1 =
      (sampleState AdapterStatus.READY, Except.ok ()) := rfl

/-- Claim C3 (amended): when the adapter status is `READY`, `setChainConfig`
does not raise: it returns normally at once, leaving every adapter field
unchanged (a silent no-op rather than an initialization error). -/
theorem setChainConfig_ready_returns_normally (reg : Registry)
    (c : CustomChainConfig) (ad : String) (cc : Option CustomChainConfig)
    (ans : String) (cns : ChainNamespace) (ty : AdapterCategory) (nm : String)
    (pr : Option Nat) :
    setChainConfig reg
        { adapterData := ad, chainConfig := cc, adapterNamespace := ans,
          currentChainNamespace := cns, type := ty, name := nm,
          status := AdapterStatus.READY, provider := pr } c =
      ({ adapterData := ad, chainConfig := cc, adapterNamespace := ans,
         currentChainNamespace := cns, type := ty, name := nm,
         status := AdapterStatus.READY, provider := pr }, Except.ok ()) := rfl

/-- Claim C4: when the adapter status is `READY`, `setChainConfig` performs
no mutation — for every stored chain configuration and every supplied
argument, the post-call state equals the pre-call state, field by field. -/
theorem setChainConfig_ready_no_mutation (reg : Registry) (s : BaseAdapterState)
    (c : CustomChainConfig) (h : s.status = AdapterStatus.READY) :
    (setChainConfig reg s c).1 = s ∧
    (setChainConfig reg s c).1.chainConfig = s.chainConfig ∧
    (setChainConfig reg s c).1.adapterData = s.adapterData ∧
    (setChainConfig reg s c).1.adapterNamespace = s.adapterNamespace ∧
    (setChainConfig reg s c).1.currentChainNamespace = s.currentChainNamespace ∧
    (setChainConfig reg s c).1.type = s.type ∧
    (setChainConfig reg s c).1.name = s.name ∧
    (setChainConfig reg s c).1.status = s.status ∧
    (setChainConfig reg s c).1.provider = s.provider := by
  have e : setChainConfig reg s c = (s, Except.ok ()) := by
    unfold setChainConfig
    rw [if_pos h]
  rw [e]
  exact ⟨rfl, rfl, rfl, rfl, rfl, rfl, rfl, rfl, rfl⟩

/-- Witness for claim C4: a concrete `READY` adapter holding a stored
configuration is returned unchanged by a `setChainConfig` call. -/
theorem setChainConfig_ready_no_mutation_witness :
    (setChainConfig reg0 (sampleStateAlt AdapterStatus.READY) cfg1).1 =
      sampleStateAlt AdapterStatus.READY :=
  (setChainConfig_ready_no_mutation reg0 (sampleStateAlt AdapterStatus.READY) cfg1 rfl).1

/-- Claim C6: in any non-`READY` status, a single `setChainConfig` call
with a namespace-carrying configuration stores exactly the merge of the
registry default for that namespace and chain id with the caller-supplied
fields: every supplied field takes precedence over the default, and every
omitted field comes from the default. -/
theorem setChainConfig_merge_spec (reg : Registry) (s : BaseAdapterState)
    (c : CustomChainConfig) (ns : ChainNamespace)
    (hst : s.status ≠ AdapterStatus.READY)
    (hns : c.chainNamespace = some ns) :
    setChainConfig reg s c =
      ({ s with chainConfig := some (mergeConfig (reg ns c.chainId) c) },
        Except.ok ()) ∧
    (∀ v, c.chainNamespace = some v →
      (mergeConfig (reg ns c.chainId) c).chainNamespace = some v) ∧
    (∀ v, c.chainId = some v →
      (mergeConfig (reg ns c.chainId) c).chainId = some v) ∧
    (∀ v, c.rpcTarget = some v →
      (mergeConfig (reg ns c.chainId) c).rpcTarget = some v) ∧
    (∀ v, c.displayName = some v →
      (mergeConfig (reg ns c.chainId) c).displayName = some v) ∧
    (∀ v, c.blockExplorer = some v →
      (mergeConfig (reg ns c.chainId) c).blockExplorer = some v) ∧
    (∀ v, c.ticker = some v →
      (mergeConfig (reg ns c.chainId) c).ticker = some v) ∧
    (∀ v, c.tickerName = some v →
      (mergeConfig (reg ns c.chainId) c).tickerName = some v) ∧
    (c.chainId = none →
      (mergeConfig (reg ns c.chainId) c).chainId = (reg ns c.chainId).chainId) ∧
    (c.rpcTarget = none →
      (mergeConfig (reg ns c.chainId) c).rpcTarget = (reg ns c.chainId).rpcTarget) ∧
    (c.displayName = none →
      (mergeConfig (reg ns c.chainId) c).displayName = (reg ns c.chainId).displayName) ∧
    (c.blockExplorer = none →
      (mergeConfig (reg ns c.chainId) c).blockExplorer = (reg ns c.chainId).blockExplorer) ∧
    (c.ticker = none →
      (mergeConfig (reg ns c.chainId) c).ticker = (reg ns c.chainId).ticker) ∧
    (c.tickerName = none →
      (mergeConfig (reg ns c.chainId) c).tickerName = (reg ns c.chainId).tickerName) :=
  ⟨setChainConfig_step reg s c ns hst hns,
    (mergeField_spec _ _).1, (mergeField_spec _ _).1, (mergeField_spec _ _).1,
    (mergeField_spec _ _).1, (mergeField_spec _ _).1, (mergeField_spec _ _).1,
    (mergeField_spec _ _).1,
    (mergeField_spec _ _).2, (mergeField_spec _ _).2, (mergeField_spec _ _).2,
    (mergeField_spec _ _).2, (mergeField_spec _ _).2, (mergeField_spec _ _).2⟩

/-- Witness for claim C6: a concrete call from `NOT_READY` stores the merge
of the fixture default with `cfg1`; the supplied RPC target wins over the
default, the omitted display name comes from the default. -/
theorem setChainConfig_merge_spec_witness :
    setChainConfig reg0 (sampleState AdapterStatus.NOT_READY) cfg1 =
      ({ sampleState AdapterStatus.NOT_READY with
          chainConfig :=
            some (mergeConfig (reg0 ChainNamespace.eip155 cfg1.chainId) cfg1) },
        Except.ok ()) ∧
    (mergeConfig (reg0 ChainNamespace.eip155 cfg1.chainId) cfg1).rpcTarget =
      some "https://custom.example" ∧
    (mergeConfig (reg0 ChainNamespace.eip155 cfg1.chainId) cfg1).displayName =
      some "Ethereum Mainnet" :=
  ⟨(setChainConfig_merge_spec reg0 (sampleState AdapterStatus.NOT_READY) cfg1
      ChainNamespace.eip155 (by decide) rfl).1,
    (setChainConfig_merge_spec reg0 (sampleState AdapterStatus.NOT_READY) cfg1
      ChainNamespace.eip155 (by decide) rfl).2.2.2.1 "https://custom.example" rfl,
    ((setChainConfig_merge_spec reg0 (sampleState AdapterStatus.NOT_READY) cfg1
      ChainNamespace.eip155 (by decide) rfl).2.2.2.2.2.2.2.2.2.2.1 rfl).trans rfl⟩

/-- Claim C7: in any non-`READY` status, `setChainConfig` with a
configuration that omits the chain namespace throws the initialization
error "ChainNamespace is required while setting chainConfig" and leaves the
whole adapter state — stored chain configuration included — unchanged. -/
theorem setChainConfig_missing_namespace_spec (reg : Registry)
    (s : BaseAdapterState) (c : CustomChainConfig)
    (hst : s.status ≠ AdapterStatus.READY)
    (hns : c.chainNamespace = none) :
    setChainConfig reg s c =
      (s, Except.error { kind := ErrorKind.initialization,
                         message := "ChainNamespace is required while setting chainConfig" }) := by
  unfold setChainConfig
  rw [if_neg hst, hns]
  rfl

/-- Witness for claim C7: a concrete `DISCONNECTED` adapter holding a stored
configuration rejects the empty configuration and is unchanged. -/
theorem setChainConfig_missing_namespace_spec_witness :
    setChainConfig reg0 (sampleStateAlt AdapterStatus.DISCONNECTED) cfgEmpty =
      (sampleStateAlt AdapterStatus.DISCONNECTED,
        Except.error { kind := ErrorKind.initialization,
                       message := "ChainNamespace is required while setting chainConfig" }) :=
  setChainConfig_missing_namespace_spec reg0
    (sampleStateAlt AdapterStatus.DISCONNECTED) cfgEmpty (by decide) rfl

/-- Claim C10: every status other than `READY` — `NOT_READY`, `CONNECTING`,
`CONNECTED`, `DISCONNECTED`, `ERRORED` — lets `setChainConfig` (with a
namespace-carrying configuration) succeed and replace whatever configuration
was stored before with the fresh merge of registry default and supplied
fields: only `READY` blocks reconfiguration. -/
theorem setChainConfig_not_frozen (reg : Registry) (s : BaseAdapterState)
    (c : CustomChainConfig) (ns : ChainNamespace)
    (prev : Option CustomChainConfig)
    (hns : c.chainNamespace = some ns) :
    (setChainConfig reg
        { s with chainConfig := prev, status := AdapterStatus.NOT_READY } c =
      ({ s with
          chainConfig := some (mergeConfig (reg ns c.chainId) c),
          status := AdapterStatus.NOT_READY }, Except.ok ())) ∧
    (setChainConfig reg
        { s with chainConfig := prev, status := AdapterStatus.CONNECTING } c =
      ({ s with
          chainConfig := some (mergeConfig (reg ns c.chainId) c),
          status := AdapterStatus.CONNECTING }, Except.ok ())) ∧
    (setChainConfig reg
        { s with chainConfig := prev, status := AdapterStatus.CONNECTED } c =
      ({ s with
          chainConfig := some (mergeConfig (reg ns c.chainId) c),
          status := AdapterStatus.CONNECTED }, Except.ok ())) ∧
    (setChainConfig reg
        { s with chainConfig := prev, status := AdapterStatus.DISCONNECTED } c =
      ({ s with
          chainConfig := some (mergeConfig (reg ns c.chainId) c),
          status := AdapterStatus.DISCONNECTED }, Except.ok ())) ∧
    (setChainConfig reg
        { s with chainConfig := prev, status := AdapterStatus.ERRORED } c =
      ({ s with
          chainConfig := some (mergeConfig (reg ns c.chainId) c),
          status := AdapterStatus.ERRORED }, Except.ok ())) :=
  ⟨setChainConfig_step reg _ c ns (by intro h; cases h) hns,
    setChainConfig_step reg _ c ns (by intro h; cases h) hns,
    setChainConfig_step reg _ c ns (by intro h; cases h) hns,
    setChainConfig_step reg _ c ns (by intro h; cases h) hns,
    setChainConfig_step reg _ c ns (by intro h; cases h) hns⟩

/-- Witness for claim C10: a concrete `CONNECTED` adapter holding the
fixture default replaces it with the merge of the registry default and
`cfg2`. -/
theorem setChainConfig_not_frozen_witness :
    setChainConfig reg0
        { sampleStateAlt AdapterStatus.CONNECTED with
            chainConfig := some defaultEip155,
            status := AdapterStatus.CONNECTED } cfg2 =
      ({ sampleStateAlt AdapterStatus.CONNECTED with
          chainConfig :=
            some (mergeConfig (reg0 ChainNamespace.eip155 cfg2.chainId) cfg2),
          status := AdapterStatus.CONNECTED }, Except.ok ()) :=
  (setChainConfig_not_frozen reg0 (sampleStateAlt AdapterStatus.CONNECTED) cfg2
    ChainNamespace.eip155 (some defaultEip155) rfl).2.2.1

/-- Counterexample to claim C5: from `NOT_READY`, calling `setChainConfig`
with `cfg1` (RPC target "https://custom.example") and then with `cfg2`
(which omits the RPC target) leaves the registry default
"https://default.example" stored, not the first call's custom value — the
second call merges over a fresh registry default, not over the first
merge. -/
theorem setChainConfig_twice_counterexample :
    setChainConfig reg0
        (setChainConfig reg0 (sampleState AdapterStatus.NOT_READY) cfg1).1 cfg2 =
      ({ sampleState AdapterStatus.NOT_READY with
          chainConfig := some (mergeConfig defaultEip155 cfg2) }, Except.ok ()) ∧
    (mergeConfig defaultEip155 cfg1).rpcTarget = some "https://custom.example" ∧
    (mergeConfig defaultEip155 cfg2).rpcTarget = some "https://default.example" ∧
    some "https://default.example" ≠ some "https://custom.example" :=
  ⟨rfl, rfl, rfl, by decide⟩

/-- Claim C5 (amended): for two namespace-carrying configurations applied in
sequence from any non-`READY` status, the stored result is the merge of the
registry default for the second configuration's namespace and chain id with
the second configuration's fields alone: the second call's fields take
precedence over that registry default for overlapping keys, but every field
absent from the second call is reset to the registry default — values from
the first merge do not survive. -/
theorem setChainConfig_twice_spec (reg : Registry) (s : BaseAdapterState)
    (c1 c2 : CustomChainConfig) (ns1 ns2 : ChainNamespace)
    (hst : s.status ≠ AdapterStatus.READY)
    (h1 : c1.chainNamespace = some ns1)
    (h2 : c2.chainNamespace = some ns2) :
    setChainConfig reg (setChainConfig reg s c1).1 c2 =
      ({ s with chainConfig := some (mergeConfig (reg ns2 c2.chainId) c2) },
        Except.ok ()) ∧
    (∀ v, c2.rpcTarget = some v →
      (mergeConfig (reg ns2 c2.chainId) c2).rpcTarget = some v) ∧
    (∀ v, c2.displayName = some v →
      (mergeConfig (reg ns2 c2.chainId) c2).displayName = some v) ∧
    (∀ v, c2.chainId = some v →
      (mergeConfig (reg ns2 c2.chainId) c2).chainId = some v) ∧
    (c2.rpcTarget = none →
      (mergeConfig (reg ns2 c2.chainId) c2).rpcTarget = (reg ns2 c2.chainId).rpcTarget) ∧
    (c2.displayName = none →
      (mergeConfig (reg ns2 c2.chainId) c2).displayName = (reg ns2 c2.chainId).displayName) ∧
    (c2.chainId = none →
      (mergeConfig (reg ns2 c2.chainId) c2).chainId = (reg ns2 c2.chainId).chainId) := by
  refine ⟨?_, (mergeField_spec _ _).1, (mergeField_spec _ _).1, (mergeField_spec _ _).1,
    (mergeField_spec _ _).2, (mergeField_spec _ _).2, (mergeField_spec _ _).2⟩
  rw [setChainConfig_step reg s c1 ns1 hst h1]
  exact setChainConfig_step reg
    { s with chainConfig := some (mergeConfig (reg ns1 c1.chainId) c1) } c2 ns2 hst h2

/-- Witness for claim C5 (amended): the concrete two-call sequence of the
counterexample lands on the merge of the fixture default with `cfg2`. -/
theorem setChainConfig_twice_spec_witness :
    setChainConfig reg0
        (setChainConfig reg0 (sampleState AdapterStatus.NOT_READY) cfg1).1 cfg2 =
      ({ sampleState AdapterStatus.NOT_READY with
          chainConfig :=
            some (mergeConfig (reg0 ChainNamespace.eip155 cfg2.chainId) cfg2) },
        Except.ok ()) :=
  (setChainConfig_twice_spec reg0 (sampleState AdapterStatus.NOT_READY) cfg1 cfg2
    ChainNamespace.eip155 ChainNamespace.eip155 (by decide) rfl rfl).1

/-- Shared lemma: reading `chainConfigProxy` through a valid internal
reference allocates a fresh copy of the stored object at the end of the
heap and returns a reference to it. -/
theorem chainConfigProxy_valid (h : Heap) (r : Nat) (c : CustomChainConfig)
    (hv : h.read r = some c) :
    chainConfigProxy h (some r) =
      ({ objs := h.objs ++ [c] }, some h.objs.length) := by
  simp only [chainConfigProxy, hv, Heap.alloc]

/-- Claim C8: two consecutive `chainConfigProxy` reads return value-equal
configurations held in instances distinct from each other and from the
internal stored object, and mutating a returned instance affects neither
the stored configuration nor a subsequent `chainConfigProxy` read.  Here
`h` is the object heap, `r` the adapter's internal `chainConfig` reference,
`c` the stored configuration value and `cMut` an arbitrary overwrite a
caller performs on the first returned copy. -/
theorem chainConfigProxy_defensive_copy (h : Heap) (r : Nat)
    (c cMut : CustomChainConfig) (hv : h.read r = some c) :
    chainConfigProxy h (some r) =
      ({ objs := h.objs ++ [c] }, some h.objs.length) ∧
    chainConfigProxy { objs := h.objs ++ [c] } (some r) =
      ({ objs := h.objs ++ [c] ++ [c] }, some (h.objs.length + 1)) ∧
    Heap.read { objs := h.objs ++ [c] ++ [c] } h.objs.length = some c ∧
    Heap.read { objs := h.objs ++ [c] ++ [c] } (h.objs.length + 1) = some c ∧
    Heap.read { objs := h.objs ++ [c] ++ [c] } r = some c ∧
    h.objs.length ≠ h.objs.length + 1 ∧
    r ≠ h.objs.length ∧
    r ≠ h.objs.length + 1 ∧
    Heap.read
      (Heap.write { objs := h.objs ++ [c] ++ [c] } h.objs.length cMut) r = some c ∧
    Heap.read
      (Heap.write { objs := h.objs ++ [c] ++ [c] } h.objs.length cMut)
      (h.objs.length + 1) = some c ∧
    chainConfigProxy
      (Heap.write { objs := h.objs ++ [c] ++ [c] } h.objs.length cMut) (some r) =
      ({ objs := (h.objs ++ [c] ++ [c]).set h.objs.length cMut ++ [c] },
        some (h.objs.length + 2)) ∧
    Heap.read
      { objs := (h.objs ++ [c] ++ [c]).set h.objs.length cMut ++ [c] }
      (h.objs.length + 2) = some c := by
  have hv' : h.objs[r]? = some c := hv
  obtain ⟨hr, -⟩ := List.getElem?_eq_some.mp hv'
  have f1 : (h.objs ++ [c])[r]? = some c :=
    (List.getElem?_append_left hr).trans hv'
  have hr1 : r < (h.objs ++ [c]).length := by
    simp only [List.length_append, List.length_cons, List.length_nil]
    omega
  have f2 : (h.objs ++ [c] ++ [c])[r]? = some c :=
    (List.getElem?_append_left hr1).trans f1
  have hlen1 : h.objs.length < (h.objs ++ [c]).length := by simp
  have g3 : Heap.read { objs := h.objs ++ [c] ++ [c] } h.objs.length = some c :=
    (List.getElem?_append_left hlen1).trans (List.getElem?_concat_length _ _)
  have e1 : (h.objs ++ [c]).length = h.objs.length + 1 := by simp
  have g4 : Heap.read { objs := h.objs ++ [c] ++ [c] }
      (h.objs.length + 1) = some c := by
    show (h.objs ++ [c] ++ [c])[h.objs.length + 1]? = some c
    rw [← e1]
    exact List.getElem?_concat_length _ _
  have g8 : Heap.read
      (Heap.write { objs := h.objs ++ [c] ++ [c] } h.objs.length cMut) r =
      some c := by
    show ((h.objs ++ [c] ++ [c]).set h.objs.length cMut)[r]? = some c
    rw [List.getElem?_set_ne (by omega)]
    exact f2
  have g9 : Heap.read
      (Heap.write { objs := h.objs ++ [c] ++ [c] } h.objs.length cMut)
      (h.objs.length + 1) = some c := by
    show ((h.objs ++ [c] ++ [c]).set h.objs.length cMut)[h.objs.length + 1]? =
      some c
    rw [List.getElem?_set_ne (by omega)]
    exact g4
  refine ⟨chainConfigProxy_valid h r c hv, ?_, g3, g4, f2, by omega, by omega,
    by omega, g8, g9, ?_, ?_⟩
  · have g1 : Heap.read { objs := h.objs ++ [c] } r = some c := f1
    rw [chainConfigProxy_valid { objs := h.objs ++ [c] } r c g1]
    simp
  · rw [chainConfigProxy_valid
      (Heap.write { objs := h.objs ++ [c] ++ [c] } h.objs.length cMut) r c g8]
    simp [Heap.write]
  · have ew : ((h.objs ++ [c] ++ [c]).set h.objs.length cMut).length =
        h.objs.length + 2 := by simp
    show ((h.objs ++ [c] ++ [c]).set h.objs.length cMut ++ [c])[h.objs.length + 2]? =
      some c
    rw [← ew]
    exact List.getElem?_concat_length _ _

/-- Witness for claim C8: on a concrete one-object heap, the first proxy
read copies the stored configuration to a fresh cell, and the returned
reference differs from the internal one. -/
theorem chainConfigProxy_defensive_copy_witness :
    chainConfigProxy { objs := [defaultEip155] } (some 0) =
      ({ objs := [defaultEip155, defaultEip155] }, some 1) ∧
    (0 : Nat) ≠ 1 :=
  ⟨(chainConfigProxy_defensive_copy { objs := [defaultEip155] } 0 defaultEip155
      cfg2 rfl).1,
    (chainConfigProxy_defensive_copy { objs := [defaultEip155] } 0 defaultEip155
      cfg2 rfl).2.2.2.2.2.2.1⟩

end Web3Auth
